import Mathlib

/-!
Verification of the kornia-rs storage/ownership layer and the GStreamer
capture session, as a shallow embedding of the Rust sources.

Sources embedded:
  * crates/kornia-tensor/src/allocator.rs        (CpuAllocator, TensorAllocatorError)
  * crates/kornia-tensor/src/parent_deallocator.rs (ParentDeallocator trait)
  * crates/kornia-io/src/stream/capture.rs       (StreamCapture, GstParentDeallocator,
                                                  FrameBuffer, appsink callback)

Machine integers are modelled as Nat (pointers: 0 is the null pointer) and
Int (the i32 width/height fields).  Effects at the memory-management
boundary are made observable as event traces.
-/

/-- Observable events at the memory-management boundary.
`systemFree` is a call to the system deallocator (std::alloc::dealloc),
`parentDealloc` is an invocation of a ParentDeallocator trait object's
dealloc method, and `gstBufferUnref` is the reference-count decrement that
happens when a gstreamer::Buffer value is dropped. -/
inductive MemEvent where
  | systemFree (ptr : Nat) (size : Nat) (align : Nat)
  | parentDealloc (pid : Nat)
  | gstBufferUnref (bufId : Nat)
  deriving DecidableEq

/-- std::alloc::Layout: a size and an alignment, as passed to alloc/dealloc. -/
structure Layout where
  size : Nat
  align : Nat
  deriving DecidableEq

/-- TensorAllocatorError from allocator.rs: LayoutError (invalid layout) and
NullPointer (allocation returned null). -/
inductive TensorAllocatorError where
  | LayoutError
  | NullPointer
  deriving DecidableEq

/-- A ParentDeallocator trait object (parent_deallocator.rs), as stored in
the allocator behind Arc.  `pid` identifies the object; `deallocBody` is the
trace its dealloc method emits when invoked; `dropBody` is the trace emitted
when the value itself is finally dropped (last Arc reference gone). -/
structure ParentHandle where
  pid : Nat
  deallocBody : List MemEvent
  dropBody : List MemEvent

/-- CpuAllocator from allocator.rs: a system allocator with an optional
parent relation. -/
structure CpuAllocator where
  parent : Option ParentHandle

/-- The Default impl of CpuAllocator: no parent. -/
def CpuAllocator.default : CpuAllocator := ⟨none⟩

/-- CpuAllocator::with_parent_relation: store the parent handle. -/
def CpuAllocator.with_parent_relation (p : ParentHandle) : CpuAllocator := ⟨some p⟩

/-- CpuAllocator::alloc.  The system allocator's reply (the raw pointer
returned by std::alloc::alloc, possibly null = 0) is passed in as `raw`;
the method returns Err(NullPointer) on a null reply and Ok(ptr) otherwise. -/
def CpuAllocator.alloc (_a : CpuAllocator) (raw : Nat) : Except TensorAllocatorError Nat :=
  if raw = 0 then Except.error TensorAllocatorError.NullPointer else Except.ok raw

/-- CpuAllocator::dealloc, as the trace of events one call emits: if a
parent is present, invoke parent.dealloc() (and nothing else — the pointer
and layout are unused); otherwise free the region with the system
deallocator, unless the pointer is null, in which case do nothing. -/
def CpuAllocator.dealloc (a : CpuAllocator) (ptr : Nat) (l : Layout) : List MemEvent :=
  match a.parent with
  | some p => [MemEvent.parentDealloc p.pid]
  | none => if ptr ≠ 0 then [MemEvent.systemFree ptr l.size l.align] else []

/-- Modelled from the spec: storage destruction (kornia-tensor's storage.rs
is not among the sources) invokes the allocator's release path exactly once;
afterwards the storage's own allocator value is dropped, which — when it held
the last Arc reference to the parent handle — drops the parent object,
emitting its drop trace. -/
def storageTeardown (a : CpuAllocator) (ptr : Nat) (l : Layout) (lastRef : Bool) :
    List MemEvent :=
  a.dealloc ptr l ++
    (match a.parent with
     | some p => if lastRef then p.dropBody else []
     | none => [])

/-- GstParentDeallocator from capture.rs: a newtype wrapping a
gstreamer::Buffer (identified here by `buffer`). -/
structure GstParentDeallocator where
  buffer : Nat

/-- The body of GstParentDeallocator's ParentDeallocator::dealloc impl: it is
empty (a comment only), so the invocation emits no events. -/
def GstParentDeallocator.deallocRun (_g : GstParentDeallocator) : List MemEvent := []

/-- Dropping a GstParentDeallocator drops the wrapped gstreamer::Buffer,
which decrements its reference count (gstreamer's own teardown path). -/
def GstParentDeallocator.dropRun (g : GstParentDeallocator) : List MemEvent :=
  [MemEvent.gstBufferUnref g.buffer]

/-- View a GstParentDeallocator as the ParentHandle trait object the
allocator stores. -/
def GstParentDeallocator.toHandle (g : GstParentDeallocator) : ParentHandle :=
  ⟨g.buffer, g.deallocRun, g.dropRun⟩

/-- C1: a dealloc call on an allocator built by with_parent_relation invokes
the parent's release exactly once and never frees the region with the system
deallocator; a dealloc call on a parentless allocator with a (non-null)
region frees it via the system deallocator.  dealloc is one pure function,
so this holds for every call site — normal drop or early-return path. -/
theorem C1_dealloc_ownership (p : ParentHandle) (ptr : Nat) (l : Layout) (h : ptr ≠ 0) :
    (CpuAllocator.with_parent_relation p).dealloc ptr l = [MemEvent.parentDealloc p.pid] ∧
    (∀ q sz al, MemEvent.systemFree q sz al ∉ (CpuAllocator.with_parent_relation p).dealloc ptr l) ∧
    CpuAllocator.default.dealloc ptr l = [MemEvent.systemFree ptr l.size l.align] := by
  refine ⟨rfl, ?_, ?_⟩
  · intro q sz al hmem
    simp [CpuAllocator.dealloc, CpuAllocator.with_parent_relation] at hmem
  · simp [CpuAllocator.dealloc, CpuAllocator.default, h]

/-- Witness for C1 at a concrete parent handle, pointer and layout. -/
theorem C1_dealloc_ownership_witness :
    (CpuAllocator.with_parent_relation (GstParentDeallocator.toHandle ⟨7⟩)).dealloc 4 ⟨16, 8⟩
      = [MemEvent.parentDealloc 7] ∧
    CpuAllocator.default.dealloc 4 ⟨16, 8⟩ = [MemEvent.systemFree 4 16 8] :=
  ⟨(C1_dealloc_ownership (GstParentDeallocator.toHandle ⟨7⟩) 4 ⟨16, 8⟩ (by decide)).1,
   (C1_dealloc_ownership (GstParentDeallocator.toHandle ⟨7⟩) 4 ⟨16, 8⟩ (by decide)).2.2⟩

/-- C8: for every layout and every system-allocator reply, CpuAllocator::alloc
either returns a non-null pointer or fails explicitly with NullPointer; it
never returns null as a success value. -/
theorem C8_alloc_explicit_failure (a : CpuAllocator) (raw : Nat) :
    (∃ p, a.alloc raw = Except.ok p ∧ p ≠ 0) ∨
    a.alloc raw = Except.error TensorAllocatorError.NullPointer := by
  by_cases h : raw = 0
  · right
    simp [CpuAllocator.alloc, h]
  · left
    exact ⟨raw, by simp [CpuAllocator.alloc, h], h⟩

/-- C10: CpuAllocator::dealloc is total and never hands a null pointer to the
system deallocator: with no parent and a null pointer the call is a no-op;
with a parent the pointer and layout arguments are never consulted; and every
systemFree event it ever emits carries a non-null pointer. -/
theorem C10_dealloc_null_safety :
    (∀ l : Layout, CpuAllocator.default.dealloc 0 l = []) ∧
    (∀ (p : ParentHandle) (ptr ptr' : Nat) (l l' : Layout),
      (CpuAllocator.with_parent_relation p).dealloc ptr l
        = (CpuAllocator.with_parent_relation p).dealloc ptr' l') ∧
    (∀ (a : CpuAllocator) (ptr : Nat) (l : Layout) (q sz al : Nat),
      MemEvent.systemFree q sz al ∈ a.dealloc ptr l → q ≠ 0) := by
  refine ⟨fun l => by simp [CpuAllocator.dealloc, CpuAllocator.default], fun p ptr ptr' l l' => rfl, ?_⟩
  intro a ptr l q sz al hmem
  match a with
  | ⟨some p⟩ => simp [CpuAllocator.dealloc] at hmem
  | ⟨none⟩ =>
    by_cases hp : ptr = 0
    · simp [CpuAllocator.dealloc, hp] at hmem
    · simp [CpuAllocator.dealloc, hp] at hmem
      intro hq
      exact hp (hmem.1.symm.trans hq)

/-- Witness for C10: the no-op branch at a concrete layout, and the
systemFree-membership implication discharged at a concrete event. -/
theorem C10_dealloc_null_safety_witness :
    CpuAllocator.default.dealloc 0 ⟨16, 8⟩ = [] ∧ (4 : Nat) ≠ 0 :=
  ⟨C10_dealloc_null_safety.1 ⟨16, 8⟩,
   C10_dealloc_null_safety.2.2 CpuAllocator.default 4 ⟨1, 1⟩ 4 1 1 (by decide)⟩

/-- C9: GstParentDeallocator's dealloc is a no-op; the wrapped producer
buffer is released (unreferenced) exactly when the GstParentDeallocator value
itself is dropped — i.e. when the storage teardown drops the last shared
reference — via the buffer's own teardown path, and never by the allocator's
direct free path. -/
theorem C9_gst_parent_release (b ptr : Nat) (l : Layout) :
    GstParentDeallocator.deallocRun ⟨b⟩ = [] ∧
    storageTeardown
        (CpuAllocator.with_parent_relation (GstParentDeallocator.toHandle ⟨b⟩)) ptr l true
      = [MemEvent.parentDealloc b, MemEvent.gstBufferUnref b] ∧
    storageTeardown
        (CpuAllocator.with_parent_relation (GstParentDeallocator.toHandle ⟨b⟩)) ptr l false
      = [MemEvent.parentDealloc b] := by
  refine ⟨rfl, ?_, ?_⟩ <;>
    simp [storageTeardown, CpuAllocator.dealloc, CpuAllocator.with_parent_relation,
      GstParentDeallocator.toHandle, GstParentDeallocator.deallocRun,
      GstParentDeallocator.dropRun]

/-- CircularBuffer<N, T> from the circular_buffer crate (an external
dependency; its documented overwrite-oldest semantics coincide with the
spec's ring contract): a fixed-capacity FIFO, front = oldest.  The items
list never grows past N. -/
structure CircularBuffer (N : Nat) (α : Type) where
  items : List α
  deriving DecidableEq

/-- push_back: if the ring is full, the oldest (front) entry is removed —
and hence dropped/released — before the new element is appended at the back.
Returns the new ring together with the evicted entry, if any.  Total: it
never fails or blocks. -/
def CircularBuffer.push_back {N : Nat} {α : Type} (r : CircularBuffer N α) (x : α) :
    CircularBuffer N α × Option α :=
  if r.items.length = N then (⟨r.items.tail ++ [x]⟩, r.items.head?)
  else (⟨r.items ++ [x]⟩, none)

/-- pop_front: remove and return the oldest entry, or report empty. -/
def CircularBuffer.pop_front {N : Nat} {α : Type} (r : CircularBuffer N α) :
    Option α × CircularBuffer N α :=
  match r.items with
  | [] => (none, r)
  | x :: rest => (some x, ⟨rest⟩)

/-- clear: drop every entry; returns the emptied ring and the released
entries. -/
def CircularBuffer.clear {N : Nat} {α : Type} (r : CircularBuffer N α) :
    CircularBuffer N α × List α :=
  (⟨[]⟩, r.items)

/-- Drain helper: pop_front repeatedly, with the ring's length as fuel. -/
def drainAux {N : Nat} {α : Type} : Nat → CircularBuffer N α → List α
  | 0, _ => []
  | n + 1, r =>
    match r.pop_front with
    | (none, _) => []
    | (some x, r') => x :: drainAux n r'

/-- Drain a ring by repeated pop_front until empty. -/
def CircularBuffer.drain {N : Nat} {α : Type} (r : CircularBuffer N α) : List α :=
  drainAux r.items.length r

/-- Push a whole list of elements in order, collecting every evicted entry
in eviction order. -/
def pushAll {N : Nat} {α : Type} (r : CircularBuffer N α) (xs : List α) :
    CircularBuffer N α × List α :=
  match xs with
  | [] => (r, [])
  | x :: rest =>
    let pr := CircularBuffer.push_back r x
    let out := pushAll pr.1 rest
    (out.1, pr.2.toList ++ out.2)

/-- FrameBuffer from capture.rs: the pulled gstreamer::Buffer (identified by
`bufId`, with its byte length and whether map_readable succeeds on it) plus
the i32 width and height read from the sample's caps. -/
structure FrameBuffer where
  bufId : Nat
  width : Int
  height : Int
  byteLen : Nat
  readable : Bool
  deriving DecidableEq

/-- Error kinds of the stream module as used in capture.rs (the module that
declares the enum is not among the sources; the variants below are the ones
capture.rs constructs).  MutexPoisonError realises the spec's
SynchronizationFailure kind; PullSampleError and StateChangeError stand for
the variants produced by the From conversions behind the two question-mark
operators. -/
inductive StreamCaptureError where
  | MutexPoisonError
  | GetBufferError
  | SendEosError
  | GetCapsError (msg : String)
  | PullSampleError
  | StateChangeError
  deriving DecidableEq

/-- The environment one appsink callback invocation sees: the results of the
external gstreamer calls made by extract_frame_buffer, in calling order. -/
structure SampleEnv where
  pullOk : Bool
  capsPresent : Bool
  structPresent : Bool
  heightField : Option Int
  widthField : Option Int
  bufferPresent : Bool
  bufId : Nat
  byteLen : Nat
  readable : Bool

/-- StreamCapture::extract_frame_buffer: pull the sample, read caps, the
first caps structure, the height and width fields, and take the buffer;
the first failing step aborts with its error. -/
def extract_frame_buffer (e : SampleEnv) : Except StreamCaptureError FrameBuffer :=
  if e.pullOk = false then Except.error StreamCaptureError.PullSampleError
  else if e.capsPresent = false then
    Except.error (StreamCaptureError.GetCapsError ("Failed to get the caps"))
  else if e.structPresent = false then
    Except.error (StreamCaptureError.GetCapsError ("Failed to get the structure"))
  else
    match e.heightField with
    | none => Except.error (StreamCaptureError.GetCapsError ("height"))
    | some h =>
      match e.widthField with
      | none => Except.error (StreamCaptureError.GetCapsError ("width"))
      | some w =>
        if e.bufferPresent = false then Except.error StreamCaptureError.GetBufferError
        else Except.ok ⟨e.bufId, w, h, e.byteLen, e.readable⟩

/-- The value the new_sample callback hands back to gstreamer:
Ok(FlowSuccess::Ok), Err(FlowError::Eos) or Err(FlowError::Error). -/
inductive FlowReturn where
  | ok
  | eos
  | error
  deriving DecidableEq

/-- GStreamer flow semantics (external collaborator, spec section 6):
after GST_FLOW_OK the producer keeps streaming and will deliver further
frames; GST_FLOW_EOS tells upstream the pad is at end-of-stream, so the
producer stops delivering; GST_FLOW_ERROR is a fatal streaming error. -/
def FlowReturn.producerContinues : FlowReturn → Bool
  | FlowReturn.ok => true
  | FlowReturn.eos => false
  | FlowReturn.error => false

/-- A recoverable skip-this-frame outcome is one after which the producer
keeps producing the subsequent frames (the spec's "not a fatal session
failure": only that single frame is lost). -/
def isSkipFrameOutcome (f : FlowReturn) : Bool := f.producerContinues

/-- The new_sample callback installed by StreamCapture::new: extraction
failure is mapped to Err(FlowError::Eos) without touching the ring; on
success the lock is taken (a poisoned lock maps to Err(FlowError::Error))
and the frame is pushed.  Returns the flow value, the ring afterwards, and
the entry evicted by the push, if any. -/
def newSampleCallback (e : SampleEnv) (lockPoisoned : Bool)
    (ring : CircularBuffer 5 FrameBuffer) :
    FlowReturn × CircularBuffer 5 FrameBuffer × Option FrameBuffer :=
  match extract_frame_buffer e with
  | Except.error _ => (FlowReturn.eos, ring, none)
  | Except.ok fb =>
    if lockPoisoned then (FlowReturn.error, ring, none)
    else
      let pr := ring.push_back fb
      (FlowReturn.ok, pr.1, pr.2)

/-- The i32-to-usize cast written `x as usize` in grab: sign-extend to 64
bits and reinterpret (negative values wrap modulo 2^64). -/
def usizeOfI32 (x : Int) : Nat := (x % (2 : Int) ^ 64).toNat

/-- Modelled from the spec: get_strides_from_shape (kornia-tensor's
tensor.rs, which defines it, is not among the sources) computes dense
row-major strides — the stride of the last dimension is 1 and the stride of
dimension i is the product of all dimension sizes after i. -/
def get_strides_from_shape : List Nat → List Nat
  | [] => []
  | _ :: rest => rest.prod :: get_strides_from_shape rest

/-- The Image<u8, 3> value grab returns: the wrapped tensor's shape, its
strides, its storage's byte length, and the gstreamer buffer wrapped by the
storage allocator's GstParentDeallocator. -/
structure GrabbedImage where
  shape : List Nat
  strides : List Nat
  storageLen : Nat
  parentBuf : Nat
  deriving DecidableEq

/-- The spec's tensor invariant: the storage byte length equals the product
of the shape times the element size. -/
def tensorInvariant (img : GrabbedImage) (elemSize : Nat) : Prop :=
  img.storageLen = img.shape.prod * elemSize

/-- The gstreamer pipeline states capture.rs sets: Null and Playing. -/
inductive GstState where
  | null
  | playing
  deriving DecidableEq

/-- StreamCapture from capture.rs: the pipeline (by its current state) and
the Arc-Mutex circular buffer of five frame buffers; `lockPoisoned` records
whether a thread panicked while holding the mutex. -/
structure StreamCapture where
  pipelineState : GstState
  ring : CircularBuffer 5 FrameBuffer
  lockPoisoned : Bool
  deriving DecidableEq

/-- StreamCapture::start: lock the ring (a poisoned lock is mapped to
MutexPoisonError), clear it, then set the pipeline to Playing; a failed
state change (external result `setStateOk`) propagates as an error after
the clear. -/
def StreamCapture.start (s : StreamCapture) (setStateOk : Bool) :
    Except StreamCaptureError Unit × StreamCapture :=
  if s.lockPoisoned then (Except.error StreamCaptureError.MutexPoisonError, s)
  else if setStateOk then
    (Except.ok (), { s with ring := (s.ring.clear).1, pipelineState := GstState.playing })
  else (Except.error StreamCaptureError.StateChangeError, { s with ring := (s.ring.clear).1 })

/-- StreamCapture::grab: lock the ring (poisoned lock maps to
MutexPoisonError), pop the oldest frame; on an empty ring return Ok(None).
Otherwise map the buffer readable — failure maps to GetBufferError, with the
frame already popped — take its pointer and length, build the shape
[height, width, 3] and its strides, and wrap the buffer bytes in a tensor
whose allocator carries a GstParentDeallocator around the original buffer. -/
def StreamCapture.grab (s : StreamCapture) :
    Except StreamCaptureError (Option GrabbedImage) × StreamCapture :=
  if s.lockPoisoned then (Except.error StreamCaptureError.MutexPoisonError, s)
  else
    match s.ring.pop_front with
    | (some fb, ring') =>
      if fb.readable then
        let width := usizeOfI32 fb.width
        let height := usizeOfI32 fb.height
        let shape := [height, width, 3]
        (Except.ok (some ⟨shape, get_strides_from_shape shape, fb.byteLen, fb.bufId⟩),
          { s with ring := ring' })
      else (Except.error StreamCaptureError.GetBufferError, { s with ring := ring' })
    | (none, _) => (Except.ok none, s)

/-- StreamCapture::close: send the EOS event (external result `sendEosOk`;
false maps to SendEosError before anything else happens), set the pipeline
to Null (external result `setStateOk`), then lock the ring (poisoned lock
maps to MutexPoisonError) and clear it. -/
def StreamCapture.close (s : StreamCapture) (sendEosOk setStateOk : Bool) :
    Except StreamCaptureError Unit × StreamCapture :=
  if sendEosOk = false then (Except.error StreamCaptureError.SendEosError, s)
  else if setStateOk = false then (Except.error StreamCaptureError.StateChangeError, s)
  else if s.lockPoisoned then
    (Except.error StreamCaptureError.MutexPoisonError, { s with pipelineState := GstState.null })
  else
    (Except.ok (),
      { s with pipelineState := GstState.null, ring := (s.ring.clear).1 })

/-- The Drop impl of StreamCapture: it runs self.close().expect(...), so a
close failure panics during drop.  The first component records whether the
drop panicked. -/
def StreamCapture.dropClose (s : StreamCapture) (sendEosOk setStateOk : Bool) :
    Bool × StreamCapture :=
  match s.close sendEosOk setStateOk with
  | (Except.ok _, s') => (false, s')
  | (Except.error _, s') => (true, s')

/-- Frame number i of the overflow scenario: a well-formed 100-wide,
50-high RGB frame of 100 * 50 * 3 bytes. -/
def F (i : Nat) : FrameBuffer := ⟨i, 100, 50, 15000, true⟩

/-- A callback environment whose sample carries no caps: extraction fails
at the caps step. -/
def envCapsMissing : SampleEnv := ⟨true, false, true, some 50, some 100, true, 1, 15000, true⟩

/-- A playing session whose ring holds one well-formed frame. -/
def sPlayingOne : StreamCapture := ⟨GstState.playing, ⟨[F 1]⟩, false⟩

/-- The session after a successful close of sPlayingOne. -/
def sClosedState : StreamCapture := (sPlayingOne.close true true).2

/-- A playing session with an empty ring and a healthy lock. -/
def sEmptyRing : StreamCapture := ⟨GstState.playing, ⟨[]⟩, false⟩

/-- A frame whose buffer cannot be mapped readable. -/
def fbUnreadable : FrameBuffer := ⟨2, 100, 50, 15000, false⟩

/-- A healthy playing session holding only the unreadable frame. -/
def sUnreadable : StreamCapture := ⟨GstState.playing, ⟨[fbUnreadable]⟩, false⟩

/-- A frame whose buffer length (17 bytes) does not match its announced
100-wide, 50-high RGB format (which needs 15000 bytes). -/
def fbMismatch : FrameBuffer := ⟨1, 100, 50, 17, true⟩

/-- A healthy playing session holding only the mismatched frame. -/
def sMismatch : StreamCapture := ⟨GstState.playing, ⟨[fbMismatch]⟩, false⟩

/-- The image grab builds from fbMismatch: shape [height, width, 3] =
[50, 100, 3], strides [300, 3, 1], storage length 17. -/
def imgMismatch : GrabbedImage := ⟨[50, 100, 3], [300, 3, 1], 17, 1⟩

/-- A session whose ring mutex is poisoned. -/
def sPoisoned : StreamCapture := ⟨GstState.playing, ⟨[F 1]⟩, true⟩

/-- A well-formed frame with height 100 and width 50 (the spec's 100 by 50
scenario) and the matching 100 * 50 * 3 = 15000-byte buffer. -/
def fbGood : FrameBuffer := ⟨3, 50, 100, 15000, true⟩

/-- A healthy playing session holding only fbGood. -/
def sGoodGrab : StreamCapture := ⟨GstState.playing, ⟨[fbGood]⟩, false⟩

/-- C2 counterexample: on a sample with missing format metadata the
callback returns FlowError::Eos, which is not a recoverable
skip-this-frame outcome — after Eos the producer stops delivering frames
instead of continuing with the next one. -/
theorem C2_counterexample :
    (newSampleCallback envCapsMissing false ⟨[]⟩).1 = FlowReturn.eos ∧
    isSkipFrameOutcome FlowReturn.eos = false := by
  constructor
  · rfl
  · rfl

/-- C2 amended: whenever extraction fails, exactly that one frame is
dropped — the ring is untouched and nothing is pushed or evicted — and the
callback signals end-of-stream (FlowError::Eos) to the producer rather than
the fatal FlowError::Error; Eos stops the stream rather than skipping the
single frame. -/
theorem C2_extraction_failure_drops_frame (e : SampleEnv) (lockP : Bool)
    (ring : CircularBuffer 5 FrameBuffer) (err : StreamCaptureError)
    (h : extract_frame_buffer e = Except.error err) :
    newSampleCallback e lockP ring = (FlowReturn.eos, ring, none) ∧
    FlowReturn.eos ≠ FlowReturn.error := by
  refine ⟨?_, by decide⟩
  simp [newSampleCallback, h]

/-- Witness for C2's amended theorem at the concrete caps-missing
environment. -/
theorem C2_extraction_failure_drops_frame_witness :
    newSampleCallback envCapsMissing true ⟨[F 1]⟩ = (FlowReturn.eos, ⟨[F 1]⟩, none) :=
  (C2_extraction_failure_drops_frame envCapsMissing true ⟨[F 1]⟩
    (StreamCaptureError.GetCapsError ("Failed to get the caps")) rfl).1

/-- C3: pushing F1..F7 into an empty capacity-5 ring evicts exactly F1 and
F2, oldest first; exactly the five entries F3..F7 remain; draining by
repeated pop-front yields [F3, F4, F5, F6, F7] in FIFO order; and a push on
any ring of length at most 5 leaves the length at most 5 (push is total —
it never fails or blocks on overflow). -/
theorem C3_ring_overflow_scenario :
    (pushAll (⟨[]⟩ : CircularBuffer 5 FrameBuffer) [F 1, F 2, F 3, F 4, F 5, F 6, F 7]).2
      = [F 1, F 2] ∧
    (pushAll (⟨[]⟩ : CircularBuffer 5 FrameBuffer) [F 1, F 2, F 3, F 4, F 5, F 6, F 7]).1.items
      = [F 3, F 4, F 5, F 6, F 7] ∧
    (pushAll (⟨[]⟩ : CircularBuffer 5 FrameBuffer) [F 1, F 2, F 3, F 4, F 5, F 6, F 7]).1.drain
      = [F 3, F 4, F 5, F 6, F 7] ∧
    (∀ (r : CircularBuffer 5 FrameBuffer) (x : FrameBuffer),
      r.items.length ≤ 5 → ((r.push_back x).1).items.length ≤ 5) := by
  refine ⟨by decide, by decide, by decide, ?_⟩
  intro r x h
  by_cases h5 : r.items.length = 5
  · simp [CircularBuffer.push_back, h5]
  · simp [CircularBuffer.push_back, h5]
    omega

/-- Witness for C3's capacity-bound conjunct at a concrete ring and frame. -/
theorem C3_ring_overflow_scenario_witness :
    (((⟨[F 1]⟩ : CircularBuffer 5 FrameBuffer).push_back (F 2)).1).items.length ≤ 5 :=
  C3_ring_overflow_scenario.2.2.2 ⟨[F 1]⟩ (F 2) (by decide)

/-- C4 counterexample: with a healthy (non-poisoned) lock, grabbing a frame
whose buffer cannot be mapped readable makes grab return an error
(GetBufferError) — not a frame and not the no-frame outcome — so grab does
surface a per-frame failure as an error. -/
theorem C4_counterexample :
    sUnreadable.lockPoisoned = false ∧
    (sUnreadable.grab).1 = Except.error StreamCaptureError.GetBufferError :=
  ⟨rfl, rfl⟩

/-- C4 amended: with a healthy lock, grab on an empty ring returns the
no-frame outcome Ok(None) as a normal condition, and grab on a ring whose
oldest frame maps readable returns that frame; producer-callback extraction
failures never reach grab (a failed extraction leaves the ring untouched).
The one exception is a popped buffer whose readable mapping fails, which
grab surfaces as GetBufferError. -/
theorem C4_grab_steady_state (s : StreamCapture) (hp : s.lockPoisoned = false) :
    (s.ring.items = [] → (s.grab).1 = Except.ok none) ∧
    (∀ fb rest, s.ring.items = fb :: rest → fb.readable = true →
      (s.grab).1 = Except.ok (some ⟨[usizeOfI32 fb.height, usizeOfI32 fb.width, 3],
        get_strides_from_shape [usizeOfI32 fb.height, usizeOfI32 fb.width, 3],
        fb.byteLen, fb.bufId⟩)) := by
  constructor
  · intro he
    simp [StreamCapture.grab, CircularBuffer.pop_front, hp, he]
  · intro fb rest hr hread
    simp [StreamCapture.grab, CircularBuffer.pop_front, hp, hr, hread]

/-- Witness for C4's amended theorem: the empty ring gives Ok(None) and a
readable frame is returned as an image. -/
theorem C4_grab_steady_state_witness :
    (sEmptyRing.grab).1 = Except.ok none ∧
    (sGoodGrab.grab).1 = Except.ok (some ⟨[100, 50, 3], [150, 3, 1], 15000, 3⟩) :=
  ⟨(C4_grab_steady_state sEmptyRing rfl).1 rfl,
   (C4_grab_steady_state sGoodGrab rfl).2 fbGood [] rfl rfl⟩

/-- C5: closing twice in a row never panics (close is a total function into
a Result) and leaves the ring empty after each call, whatever the external
EOS/state-change results of the second close are; but the Drop impl runs
self.close().expect(...), so when close fails during forced teardown — here
the EOS event is rejected, as for an already-closed pipeline — the drop
panics instead of completing teardown. -/
theorem C5_teardown_divergence :
    ((sPlayingOne.close true true).2).ring.items = [] ∧
    (∀ b1 b2 : Bool, ((sClosedState.close b1 b2).2).ring.items = []) ∧
    (sClosedState.close false true).1 = Except.error StreamCaptureError.SendEosError ∧
    (sClosedState.dropClose false true).1 = true := by
  refine ⟨rfl, ?_, rfl, rfl⟩
  decide

/-- C6 counterexample: a pushed frame announcing a 100-wide, 50-high RGB
format but carrying only 17 bytes is returned by grab as a tensor with
shape [50, 100, 3] and storage length 17, violating the invariant
storage.length_in_bytes = product(shape) * element_size (17 vs 15000):
grab performs no validation of the buffer length against the shape. -/
theorem C6_counterexample :
    (sMismatch.grab).1 = Except.ok (some imgMismatch) ∧ ¬ tensorInvariant imgMismatch 1 := by
  refine ⟨rfl, ?_⟩
  intro hinv
  simp [tensorInvariant, imgMismatch, List.prod_cons, List.prod_nil] at hinv

/-- C6 amended: when the pushed buffer's byte length does equal
height * width * 3 — as for a well-formed dense RGB frame — the tensor
grab returns satisfies the invariant, its shape is [height, width, 3]
(so a height-100, width-50 push yields [100, 50, 3]) and its storage
length is height * width * 3 bytes. -/
theorem C6_grab_invariant (s : StreamCapture) (fb : FrameBuffer) (rest : List FrameBuffer)
    (hp : s.lockPoisoned = false) (hr : s.ring.items = fb :: rest)
    (hread : fb.readable = true)
    (hlen : fb.byteLen = usizeOfI32 fb.height * usizeOfI32 fb.width * 3) :
    ∃ img, (s.grab).1 = Except.ok (some img) ∧ tensorInvariant img 1 ∧
      img.shape = [usizeOfI32 fb.height, usizeOfI32 fb.width, 3] ∧
      img.storageLen = usizeOfI32 fb.height * usizeOfI32 fb.width * 3 := by
  refine ⟨⟨[usizeOfI32 fb.height, usizeOfI32 fb.width, 3],
    get_strides_from_shape [usizeOfI32 fb.height, usizeOfI32 fb.width, 3],
    fb.byteLen, fb.bufId⟩, ?_, ?_, rfl, hlen⟩
  · simp [StreamCapture.grab, CircularBuffer.pop_front, hp, hr, hread]
  · simp only [tensorInvariant, hlen, List.prod_cons, List.prod_nil]
    ring

/-- Witness for C6's amended theorem: the spec's height-100, width-50
scenario with a matching 15000-byte buffer. -/
theorem C6_grab_invariant_witness :
    ∃ img, (sGoodGrab.grab).1 = Except.ok (some img) ∧ tensorInvariant img 1 ∧
      img.shape = [usizeOfI32 fbGood.height, usizeOfI32 fbGood.width, 3] ∧
      img.storageLen = usizeOfI32 fbGood.height * usizeOfI32 fbGood.width * 3 :=
  C6_grab_invariant sGoodGrab fbGood [] rfl rfl rfl (by decide)

/-- C7: whenever the ring's mutex is poisoned, start, grab and close (the
latter once its earlier EOS and state-change steps succeed, so that the
lock is actually reached) each return MutexPoisonError — the code's
realisation of the spec's fatal SynchronizationFailure kind — to the
caller instead of proceeding silently. -/
theorem C7_poisoned_lock (s : StreamCapture) (h : s.lockPoisoned = true) :
    (∀ b, (s.start b).1 = Except.error StreamCaptureError.MutexPoisonError) ∧
    (s.grab).1 = Except.error StreamCaptureError.MutexPoisonError ∧
    (s.close true true).1 = Except.error StreamCaptureError.MutexPoisonError := by
  refine ⟨fun b => ?_, ?_, ?_⟩ <;>
    simp [StreamCapture.start, StreamCapture.grab, StreamCapture.close, h]

/-- Witness for C7 at a concrete poisoned session. -/
theorem C7_poisoned_lock_witness :
    (sPoisoned.start true).1 = Except.error StreamCaptureError.MutexPoisonError ∧
    (sPoisoned.grab).1 = Except.error StreamCaptureError.MutexPoisonError ∧
    (sPoisoned.close true true).1 = Except.error StreamCaptureError.MutexPoisonError :=
  ⟨(C7_poisoned_lock sPoisoned rfl).1 true, (C7_poisoned_lock sPoisoned rfl).2.1,
   (C7_poisoned_lock sPoisoned rfl).2.2⟩
